import Mathlib

/-!
Verification development for the Wight-Budget repository.

The embedding models:
  * the pure budget calculator (`computeDailyDuby`, `estimateWWPoints` from
    the API layer source),
  * the spreadsheet adapter's date parsing and ledger-row location/upsert
    (`serialToDate`, `parseAnyDateValue`, `sameDay`, `findBudgetToday`,
    `findBudgetRowIndex`, `upsertBudgetRow`, `readDailyBudget`),
  * tab-title sanitization and per-user tab management
    (`sanitizeSheetTitle`, `uniqueTitle`, `duplicateUserTemplate`,
    `ensureUserTab`),
  * the relational store and the write/read HTTP handlers
    (profile save, food-log create/delete, weight-log create, dashboard).

Modelling conventions:
  * JS numbers are rationals (`ℚ`); `NaN` is modelled as `none` in
    `Option ℚ` where the source can produce it.
  * JS `Date` objects are epoch milliseconds (`ℤ`); an *invalid* Date
    (timestamp `NaN`) is `none` in `Option ℤ`.  The runtime timezone is
    modelled as UTC, so local-time accessors (`getFullYear` …) and the
    civil-date constructor coincide with the UTC calendar.
  * Host primitives whose behaviour the ECMAScript spec leaves
    implementation-defined (`new Date(string)`, number↔string
    conversions) are a parameter (`JSHost`); theorems quantify over the
    host and concrete examples instantiate it.
  * The spreadsheet is modelled by its stored cell values; formatted and
    unformatted reads both return the stored value.
-/

set_option allowUnsafeReducibility true in
attribute [semireducible] Rat.add Rat.sub Rat.mul Rat.inv Rat.ofScientific

namespace WightBudget

/-! ## JS numeric and calendar primitives -/

/-- Floor of a rational, computed on the normalized representation
(kernel-reducible, unlike the `FloorRing` notation). -/
def ratFloor (q : ℚ) : ℤ := q.num.fdiv q.den

/-- JS `Math.round`: rounds half-way cases toward positive infinity. -/
def jsRound (q : ℚ) : ℤ := ratFloor (q + (1 : ℚ)/2)

/-- Milliseconds per day. -/
def msPerDay : ℤ := 86400000

/-- Civil calendar date (year, month 1–12, day 1–31) from days since the
Unix epoch (proleptic Gregorian; Howard Hinnant's `civil_from_days`). -/
def civilFromDays (z0 : ℤ) : ℤ × ℤ × ℤ :=
  let z := z0 + 719468
  let era := z.fdiv 146097
  let doe := z - era * 146097
  let yoe := (doe - doe / 1460 + doe / 36524 - doe / 146096) / 365
  let y := yoe + era * 400
  let doy := doe - (365 * yoe + yoe / 4 - yoe / 100)
  let mp := (5 * doy + 2) / 153
  let d := doy - (153 * mp + 2) / 5 + 1
  let m := mp + (if mp < 10 then 3 else -9)
  (y + (if m ≤ 2 then 1 else 0), m, d)

/-- Days since the Unix epoch from a civil date (month must be 1–12;
the day may be any integer, extra days roll over linearly). -/
def daysFromCivil (y0 m d : ℤ) : ℤ :=
  let y := y0 - (if m ≤ 2 then 1 else 0)
  let era := y.fdiv 400
  let yoe := y - era * 400
  let doy := (153 * (m + (if 2 < m then -3 else 9)) + 2) / 5 + d - 1
  let doe := yoe * 365 + yoe / 4 - yoe / 100 + doy
  era * 146097 + doe - 719468

/-- Largest magnitude (in ms) of a valid JS Date timestamp. -/
def maxJsMs : ℕ := 8640000000000000

/-- JS `new Date(year, monthIndex, day)` at local midnight, as epoch ms.
Years 0–99 map to 1900–1999 (the constructor's two-digit-year rule);
out-of-range months and days roll over; a timestamp outside the
representable range gives an invalid Date (`none`). -/
def jsMakeDate (y0 monthIndex day : ℤ) : Option ℤ :=
  let y1 := if 0 ≤ y0 ∧ y0 ≤ 99 then 1900 + y0 else y0
  let tm := y1 * 12 + monthIndex
  let ny := tm.fdiv 12
  let nm := tm - ny * 12
  let days := daysFromCivil ny (nm + 1) 1 + (day - 1)
  let ms := days * msPerDay
  if ms.natAbs ≤ maxJsMs then some ms else none

/-- Epoch ms of a civil date's midnight (helper for concrete examples). -/
def msOfYmd (y m d : ℤ) : ℤ := daysFromCivil y m d * msPerDay

/-- `serialToDate` (gsheets source): spreadsheet serial days since
1899-12-30 to a JS Date, `new Date(Math.round((n − 25569) · 86400) · 1000)`.
The Date is invalid (`none`) when the timestamp leaves the JS range. -/
def serialToDate (n : ℚ) : Option ℤ :=
  let ms := jsRound ((n - 25569) * 86400) * 1000
  if ms.natAbs ≤ maxJsMs then some ms else none

/-- `sameDay` (gsheets source): two (valid) Dates share year, month and
day of month. -/
def sameDay (a b : ℤ) : Bool :=
  decide (civilFromDays (a.fdiv msPerDay) = civilFromDays (b.fdiv msPerDay))

/-- `sameDay` applied to a possibly-invalid second Date: comparisons with
an invalid Date's `NaN` fields are always false. -/
def sameDayJS (d : ℤ) (today : Option ℤ) : Bool :=
  match today with
  | some t => sameDay d t
  | none => false

/-! ## Host-defined JS primitives -/

/-- Implementation-defined JS string primitives: `new Date(string)`
(result `none` = invalid Date), `String(number)` and `Number(string)`
(result `none` = `NaN`, for non-empty strings). -/
structure JSHost where
  dateParse : String → Option ℤ
  numToStr : ℚ → String
  strToNum : String → Option ℚ

/-- A concrete host used by witnesses: its native date parse rejects
every string (as V8 does for day-first slash dates such as "14/3/2024"). -/
def H0 : JSHost :=
  { dateParse := fun _ => none
    numToStr := fun _ => ""
    strToNum := fun _ => none }

/-! ## Spreadsheet cell values -/

/-- A spreadsheet cell value as seen by the adapter: a number, a string,
or an absent cell (JS `undefined`/`null`). -/
inductive CellValue where
  | num (n : ℚ)
  | str (s : String)
  | empty
deriving DecidableEq

/-- JS `String(v || '')` on a cell value (`0`, `''` and absent cells are
falsy and give the empty string). -/
def cellToStr (H : JSHost) : CellValue → String
  | .num n => if n = 0 then "" else H.numToStr n
  | .str s => s
  | .empty => ""

/-- JS `Number(v || 0)` on a cell value; `none` models `NaN`. -/
def cellNumOrZero (H : JSHost) : CellValue → Option ℚ
  | .num n => some n
  | .str s => if s = "" then some 0 else H.strToNum s
  | .empty => some 0

/-! ## `parseAnyDateValue` -/

/-- Numeric value of a list of decimal digit characters. -/
def digitsVal (cs : List Char) : ℤ :=
  cs.foldl (fun acc c => acc * 10 + ((c.toNat : ℤ) - 48)) 0

/-- Match of the anchored pattern `(\d{1,2})[\/\-](\d{1,2})[\/\-](\d{2,4})`
against an entire string (the slash/dash date pattern of
`parseAnyDateValue`), returning the three numeric groups. -/
def slashMatch (s : String) : Option (ℤ × ℤ × ℤ) :=
  let cs := s.toList
  let p1 := cs.span (·.isDigit)
  match p1.2 with
  | c1 :: rest1 =>
    if (p1.1.length = 1 ∨ p1.1.length = 2) ∧ (c1 = '/' ∨ c1 = '-') then
      let p2 := rest1.span (·.isDigit)
      match p2.2 with
      | c2 :: rest2 =>
        if (p2.1.length = 1 ∨ p2.1.length = 2) ∧ (c2 = '/' ∨ c2 = '-') then
          let p3 := rest2.span (·.isDigit)
          if (2 ≤ p3.1.length ∧ p3.1.length ≤ 4) ∧ p3.2 = [] then
            some (digitsVal p1.1, digitsVal p2.1, digitsVal p3.1)
          else none
        else none
      | [] => none
    else none
  | [] => none

/-- `parseAnyDateValue` (gsheets source): numbers are treated as
spreadsheet serials; empty values give `null`; otherwise the native
parse is tried, then the slash pattern as D/M/Y and, if that Date is
invalid, as M/D/Y.  Result: `none` = JS `null`, `some none` = an invalid
Date, `some (some t)` = a valid Date with timestamp `t`. -/
def parseAnyDateValue (H : JSHost) (v : CellValue) : Option (Option ℤ) :=
  match v with
  | .num n => some (serialToDate n)
  | .empty => none
  | .str s =>
    if s = "" then none
    else
      match H.dateParse s with
      | some t => some (some t)
      | none =>
        match slashMatch s with
        | none => none
        | some (a, b, c) =>
          let y := if c < 100 then 2000 + c else c
          match jsMakeDate y (b - 1) a with
          | some t => some (some t)
          | none =>
            match jsMakeDate y (a - 1) b with
            | some t => some (some t)
            | none => none

/-! ## Ledger rows (`findBudgetToday`, `findBudgetRowIndex`, `upsertBudgetRow`) -/

/-- `BudgetRow` (gsheets source): one ledger row, columns
D=date / E=daily budget / F=food / G=price / H=budget left.  Numeric
fields are `Option ℚ` since `Number` of a malformed string is `NaN`. -/
structure BudgetRowM where
  date : String
  dailyBudget : Option ℚ
  food : String
  price : Option ℚ
  surplus : Option ℚ
deriving DecidableEq

/-- Conversion of a raw ledger row to a `BudgetRow`, as in the body of
`findBudgetToday` (`String(r[0] || '')`, `Number(r[i] || 0)`). -/
def toBudgetRow (H : JSHost) (r : List CellValue) : BudgetRowM :=
  { date := cellToStr H (r.getD 0 .empty)
    dailyBudget := cellNumOrZero H (r.getD 1 .empty)
    food := cellToStr H (r.getD 2 .empty)
    price := cellNumOrZero H (r.getD 3 .empty)
    surplus := cellNumOrZero H (r.getD 4 .empty) }

/-- `findBudgetToday` (gsheets source): scan the ledger rows (range
D6:H1000) top to bottom and return the first row whose parsed date cell
is the same calendar day as `today`, else `null`. -/
def findBudgetToday (H : JSHost) : List (List CellValue) → ℤ → Option BudgetRowM
  | [], _ => none
  | r :: rs, today =>
    match parseAnyDateValue H (r.headD .empty) with
    | some (some d) =>
      if sameDay d today then some (toBudgetRow H r) else findBudgetToday H rs today
    | _ => findBudgetToday H rs today

/-- The loop of `findBudgetRowIndex`, carrying the current 0-based row
offset within the ledger range. -/
def findBudgetRowIndexGo (H : JSHost) (today : Option ℤ) :
    List (List CellValue) → ℕ → Option ℕ
  | [], _ => none
  | r :: rs, i =>
    match parseAnyDateValue H (r.headD .empty) with
    | some (some d) =>
      if sameDayJS d today then some i else findBudgetRowIndexGo H today rs (i + 1)
    | _ => findBudgetRowIndexGo H today rs (i + 1)

/-- `findBudgetRowIndex` (gsheets source): 0-based offset within the
ledger of the first row whose date cell matches `today` (the source
returns `6 + i`, the absolute sheet row; the offset `i` is the list
index).  `today` may be an invalid Date (`none`), which matches no row. -/
def findBudgetRowIndex (H : JSHost) (rows : List (List CellValue))
    (today : Option ℤ) : Option ℕ :=
  findBudgetRowIndexGo H today rows 0

/-- The five cells written by `upsertBudgetRow`:
D=date, E=daily budget, F=food, G=price, H=surplus = budget − price. -/
def budgetRowCells (dateIso : String) (dailyBudget price : ℚ) (foodJoined : String) :
    List CellValue :=
  [.str dateIso, .num dailyBudget, .str foodJoined, .num price,
   .num (dailyBudget - price)]

/-- `upsertBudgetRow` (gsheets source): compute `surplus = dailyBudget −
price`, locate the row matching `new Date(dateIso)`; overwrite its five
cells in place when found, else append the row to the ledger table
anchored at the first data row. -/
def upsertBudgetRow (H : JSHost) (rows : List (List CellValue)) (dateIso : String)
    (dailyBudget price : ℚ) (foodJoined : String) : List (List CellValue) :=
  match findBudgetRowIndex H rows (H.dateParse dateIso) with
  | some i => rows.set i (budgetRowCells dateIso dailyBudget price foodJoined)
  | none => rows ++ [budgetRowCells dateIso dailyBudget price foodJoined]

/-- `readDailyBudget` (gsheets source): cell H2 of the user tab, via
`Number((v ?? '').toString())`, with `NaN` mapped to `0`.  A numeric
cell round-trips through `String`/`Number` to itself. -/
def readDailyBudget (H : JSHost) (budgetCell : CellValue) : ℚ :=
  match budgetCell with
  | .num n => n
  | .empty => 0
  | .str s => if s = "" then 0 else (H.strToNum s).getD 0

/-! ## Budget calculator (`estimateWWPoints`, `computeDailyDuby`) -/

/-- The four activity levels of the profile schema. -/
inductive Activity where
  | sedentary | light | moderate | intense
deriving DecidableEq

/-- Activity factor of `computeDailyDuby`'s fallback branch. -/
def activityFactor : Activity → ℚ
  | .sedentary => 12/10
  | .light => 1375/1000
  | .moderate => 155/100
  | .intense => 1725/1000

/-- `gender.toLowerCase().startsWith('m')`, the gender test shared by
the BMR computation and `estimateWWPoints`: the first character,
lowercased, is 'm'. -/
def isMaleGender (gender : String) : Bool :=
  match gender.toList with
  | c :: _ => c.toLower = 'm'
  | [] => false

/-- `estimateWWPoints` (API source): heuristic daily-points score, a
gender base plus weight, height and age buckets. -/
def estimateWWPoints (gender : String) (age heightCm : ℤ) (weightKg : ℚ) : ℤ :=
  (if isMaleGender gender then 15 else 7)
  + (if 90 ≤ weightKg then 5 else if 75 ≤ weightKg then 4 else
     if 60 ≤ weightKg then 3 else 2)
  + (if 175 ≤ heightCm then 2 else if 160 ≤ heightCm then 1 else 0)
  + (if age < 26 then 4 else if age < 37 then 3 else
     if age < 47 then 2 else if age < 58 then 1 else 0)

/-- JS truthiness test `wwPoints && wwPoints > 0` on the optional
points argument of `computeDailyDuby` (`0` and `undefined` are falsy). -/
def wwPositive : Option ℤ → Bool
  | some w => w ≠ 0 && 0 < w
  | none => false

/-- `computeDailyDuby` (API source): `score × 9 + 2` when the heuristic
score is positive, else `Math.round(bmr · factor / 300)`. -/
def computeDailyDuby (bmr : ℚ) (activity : Activity) (wwPoints : Option ℤ) : ℤ :=
  if wwPositive wwPoints then (wwPoints.getD 0) * 9 + 2
  else jsRound (bmr * activityFactor activity / 300)

/-- Mifflin-St Jeor BMR as computed inline in the profile handler. -/
def bmrOf (gender : String) (age heightCm : ℤ) (weightKg : ℚ) : ℚ :=
  if isMaleGender gender then
    10 * weightKg + (625/100) * (heightCm : ℚ) - 5 * (age : ℚ) + 5
  else
    10 * weightKg + (625/100) * (heightCm : ℚ) - 5 * (age : ℚ) - 161

/-- The daily budget stored by the profile handler:
`computeDailyDuby(bmr, activity, estimateWWPoints(…))`. -/
def profileDailyBudget (gender : String) (age heightCm : ℤ) (weightKg : ℚ)
    (activity : Activity) : ℤ :=
  computeDailyDuby (bmrOf gender age heightCm weightKg) activity
    (some (estimateWWPoints gender age heightCm weightKg))

/-! ## Tab titles (`sanitizeSheetTitle`, `uniqueTitle`, `ensureUserTab`) -/

/-- The characters the sanitizer replaces: `: \ / ? * [ ]`. -/
def forbiddenTitleChar (c : Char) : Bool :=
  c = ':' || c = '\\' || c = '/' || c = '?' || c = '*' || c = '[' || c = ']'

/-- JS `\s` whitespace (the ASCII part, which covers sheet titles). -/
def isJsSpace (c : Char) : Bool :=
  c = ' ' || c = '\t' || c = '\n' || c = '\r' || c = '\x0b' || c = '\x0c'

/-- Collapse each run of whitespace to a single space
(`replace(/\s+/g, ' ')`): of two adjacent whitespace characters the
first is dropped, and a surviving whitespace character becomes ' '. -/
def collapseSpaces : List Char → List Char
  | [] => []
  | [c] => if isJsSpace c then [' '] else [c]
  | c1 :: c2 :: cs =>
    if isJsSpace c1 && isJsSpace c2 then collapseSpaces (c2 :: cs)
    else (if isJsSpace c1 then ' ' else c1) :: collapseSpaces (c2 :: cs)

/-- JS `String.prototype.trim` (on the ASCII whitespace of `isJsSpace`). -/
def jsTrim (cs : List Char) : List Char :=
  ((cs.dropWhile isJsSpace).reverse.dropWhile isJsSpace).reverse

/-- `sanitizeSheetTitle` (gsheets source): replace forbidden characters
with spaces, collapse whitespace runs, trim, default to "User" when
empty, truncate to 80 characters. -/
def sanitizeSheetTitle (input : String) : String :=
  let replaced := input.toList.map (fun c => if forbiddenTitleChar c then ' ' else c)
  let collapsed := jsTrim (collapseSpaces replaced)
  let t := if collapsed = [] then "User".toList else collapsed
  String.mk (t.take 80)

/-- Candidate disambiguated title `"<base> (<i>)"`. -/
def numberedTitle (base : String) (i : ℕ) : String :=
  base ++ " (" ++ toString i ++ ")"

/-- The `while titles.includes(...) i++` loop of `uniqueTitle`, with
enough fuel to pass every colliding candidate. -/
def uniqueTitleGo (titles : List String) (base : String) : ℕ → ℕ → String
  | 0, i => numberedTitle base i
  | fuel + 1, i =>
    if numberedTitle base i ∈ titles then uniqueTitleGo titles base fuel (i + 1)
    else numberedTitle base i

/-- `uniqueTitle` (gsheets source): the base title if free, else the
first `"<base> (<i>)"`, `i = 1, 2, …`, not already taken. -/
def uniqueTitle (titles : List String) (base : String) : String :=
  if base ∈ titles then uniqueTitleGo titles base (titles.length + 1) 1
  else base

/-- The tab-title match used by `ensureUserTab`:
`t === base || t.startsWith(base + " (")`. -/
def tabMatches (base t : String) : Bool :=
  t = base || List.isPrefixOf (base ++ " (").toList t.toList

/-- `duplicateUserTemplate` (gsheets source) on the model state (the
list of existing tab titles): fails (`none`, the thrown error) when the
template tab is absent, else clones it under `uniqueTitle` and returns
the new title together with the updated title list. -/
def duplicateUserTemplate (titles : List String) (userName templateName : String) :
    Option (String × List String) :=
  if templateName ∈ titles then
    let newTitle := uniqueTitle titles (sanitizeSheetTitle userName)
    some (newTitle, titles ++ [newTitle])
  else none

/-- `ensureUserTab` (gsheets source): return the first existing title
matching the sanitized name exactly or with a `" ("` suffix opening,
else clone the template. -/
def ensureUserTab (titles : List String) (userName templateName : String) :
    Option (String × List String) :=
  match titles.find? (tabMatches (sanitizeSheetTitle userName)) with
  | some t => some (t, titles)
  | none => duplicateUserTemplate titles userName templateName

/-- Spec-side predicate: `t` is the base title or a suffix-numbered
variant `"<base> (<digits>)"` (what the claim asserts `ensureUserTab`
returns when it returns an existing tab). -/
def specSuffixNumbered (base t : String) : Bool :=
  t = base ||
    (List.isPrefixOf (base ++ " (").toList t.toList &&
      t.toList.getLast? = some ')' &&
      (let mid := (t.toList.drop (base.toList.length + 2)).dropLast
       mid ≠ [] && mid.all (·.isDigit)))

/-! ## Relational store model -/

/-- A `FoodItem` row: shared catalog entry. -/
structure FoodItemR where
  id : ℕ
  name : String
  duby : ℚ
  unit : String
deriving DecidableEq

/-- A `FoodLog` row, with the snapshotted `dubyCost`. -/
structure FoodLogR where
  id : ℕ
  userId : String
  foodItemId : ℕ
  portion : ℚ
  occurredAt : ℤ
  dubyCost : ℚ
deriving DecidableEq

/-- A `WeightLog` row. -/
structure WeightLogR where
  userId : String
  weightKg : ℚ
  date : ℤ
deriving DecidableEq

/-- A `Profile` row (the fields the handlers read and write). -/
structure ProfileR where
  userId : String
  heightCm : ℤ
  currentWeightKg : ℚ
  goalWeightKg : ℚ
  gender : String
  age : ℤ
  activityLevel : Activity
  dailyDubyBudget : ℤ
deriving DecidableEq

/-- The relational store.  Row ids are numeric and drawn from `nextId`
(the source uses cuid strings; only freshness matters). -/
structure DB where
  foodItems : List FoodItemR
  foodLogs : List FoodLogR
  weightLogs : List WeightLogR
  profiles : List ProfileR
  nextId : ℕ
deriving DecidableEq

/-- The validated body of `PUT /api/me/profile`. -/
structure ProfileReq where
  heightCm : ℤ
  currentWeightKg : ℚ
  goalWeightKg : ℚ
  gender : String
  age : ℤ
  activityLevel : Activity
deriving DecidableEq

/-! ## Primary-store mutations -/

/-- The `prisma.profile.upsert` of the profile handler, together with
the computed daily budget it stores and returns. -/
def profileUpsert (db : DB) (uid : String) (p : ProfileReq) : DB × ℤ :=
  let daily := profileDailyBudget p.gender p.age p.heightCm p.currentWeightKg
    p.activityLevel
  let newP : ProfileR :=
    { userId := uid, heightCm := p.heightCm, currentWeightKg := p.currentWeightKg
      goalWeightKg := p.goalWeightKg, gender := p.gender, age := p.age
      activityLevel := p.activityLevel, dailyDubyBudget := daily }
  let profiles' :=
    if (db.profiles.find? (fun q => q.userId = uid)).isSome then
      db.profiles.map (fun q => if q.userId = uid then newP else q)
    else db.profiles ++ [newP]
  ({ db with profiles := profiles' }, daily)

/-- The `dubyCost` snapshot stored by `POST /api/food-log`:
`(Number(duby) || 0) * (Number(portion) || 1)` (JS `||` on numbers). -/
def dubyCostOf (duby portion : ℚ) : ℚ :=
  (if duby = 0 then 0 else duby) * (if portion = 0 then 1 else portion)

/-- The primary mutation of `POST /api/food-log`: update the shared
`FoodItem` matching the name in place (or create it), then create the
`FoodLog` with the snapshotted cost.  Returns the new store and the
created entry's id. -/
def foodLogCreate (db : DB) (uid name : String) (duby : ℚ) (unit : String)
    (portion : ℚ) (occurredAt : ℤ) : DB × ℕ :=
  match db.foodItems.find? (fun it => it.name = name) with
  | some it =>
    let items' := db.foodItems.map
      (fun x => if x.id = it.id then { x with duby := duby, unit := unit } else x)
    let entry : FoodLogR :=
      { id := db.nextId, userId := uid, foodItemId := it.id, portion := portion
        occurredAt := occurredAt, dubyCost := dubyCostOf duby portion }
    ({ db with
        foodItems := items'
        foodLogs := db.foodLogs ++ [entry]
        nextId := db.nextId + 1 }, db.nextId)
  | none =>
    let item : FoodItemR := { id := db.nextId, name := name, duby := duby, unit := unit }
    let entry : FoodLogR :=
      { id := db.nextId + 1, userId := uid, foodItemId := item.id, portion := portion
        occurredAt := occurredAt, dubyCost := dubyCostOf duby portion }
    ({ db with
        foodItems := db.foodItems ++ [item]
        foodLogs := db.foodLogs ++ [entry]
        nextId := db.nextId + 2 }, db.nextId + 1)

/-- The primary mutation of `DELETE /api/food-log/:id`: 404 (`false`)
when no entry with that id is owned by `uid`, else delete it. -/
def foodLogDelete (db : DB) (uid : String) (id : ℕ) : DB × Bool :=
  match db.foodLogs.find? (fun l => l.id = id) with
  | some e =>
    if e.userId = uid then
      ({ db with foodLogs := db.foodLogs.filter (fun l => l.id ≠ id) }, true)
    else (db, false)
  | none => (db, false)

/-- The primary mutation of `POST /api/weight-log`. -/
def weightLogCreate (db : DB) (uid : String) (weightKg : ℚ) (date : ℤ) : DB :=
  { db with
    weightLogs := db.weightLogs ++
      [{ userId := uid, weightKg := weightKg, date := date }] }

/-! ## Best-effort mirror (`try { … sheet writes … } catch {}`) -/

/-- The `try { mirror } catch {}` wrapper present at every call site:
apply the mirror action to the sheet world; on failure keep the old
world.  `σ` abstracts the spreadsheet-side state. -/
def runMirror {σ : Type} (sheet : σ) (act : σ → Except String σ) : σ :=
  match act sheet with
  | .ok s => s
  | .error _ => sheet

/-- `PUT /api/me/profile` after validation and authentication: primary
upsert, best-effort mirror, respond with the computed daily budget. -/
def profileSaveHandler {σ : Type} (db : DB) (uid : String) (p : ProfileReq)
    (sheet : σ) (mirror : σ → Except String σ) : DB × σ × ℤ :=
  let r := profileUpsert db uid p
  (r.1, runMirror sheet mirror, r.2)

/-- `POST /api/food-log` after validation: primary create, best-effort
mirror, respond 201 with the entry id. -/
def foodLogCreateHandler {σ : Type} (db : DB) (uid name : String) (duby : ℚ)
    (unit : String) (portion : ℚ) (occurredAt : ℤ)
    (sheet : σ) (mirror : σ → Except String σ) : DB × σ × ℕ :=
  let r := foodLogCreate db uid name duby unit portion occurredAt
  (r.1, runMirror sheet mirror, r.2)

/-- `DELETE /api/food-log/:id`: on 404 the mirror block is never
reached; on success the mirror is best-effort.  The Boolean is the
response (`true` = ok, `false` = 404). -/
def foodLogDeleteHandler {σ : Type} (db : DB) (uid : String) (id : ℕ)
    (sheet : σ) (mirror : σ → Except String σ) : DB × σ × Bool :=
  let r := foodLogDelete db uid id
  if r.2 then (r.1, runMirror sheet mirror, true) else (r.1, sheet, false)

/-- `POST /api/weight-log` after validation: primary create, best-effort
mirror, respond 201. -/
def weightLogCreateHandler {σ : Type} (db : DB) (uid : String) (weightKg : ℚ)
    (date : ℤ) (sheet : σ) (mirror : σ → Except String σ) : DB × σ × Unit :=
  (weightLogCreate db uid weightKg date, runMirror sheet mirror, ())

/-! ## Dashboard (`GET /api/dashboard`) -/

/-- Left-pad a numeral to two digits. -/
def pad2 (n : ℤ) : String :=
  if n < 10 then "0" ++ toString n else toString n

/-- `toISOString().slice(0,10)` of an epoch-ms timestamp (UTC model). -/
def isoDateOfMs (ms : ℤ) : String :=
  let c := civilFromDays (ms.fdiv msPerDay)
  toString c.1 ++ "-" ++ pad2 c.2.1 ++ "-" ++ pad2 c.2.2

/-- `toISOString().slice(11,16)` (the HH:MM part) of an epoch-ms
timestamp (UTC model). -/
def isoTimeOfMs (ms : ℤ) : String :=
  let rem := ms.emod msPerDay
  pad2 (rem / 3600000) ++ ":" ++ pad2 (rem % 3600000 / 60000)

/-- `setHours(0,0,0,0)` on an epoch-ms timestamp (UTC model): midnight
of the same day. -/
def dayStart (ms : ℤ) : ℤ := ms.fdiv msPerDay * msPerDay

/-- Insert a log into a list sorted by `occurredAt`, after existing
equal timestamps (stability of `orderBy asc`). -/
def insertByTime (x : FoodLogR) : List FoodLogR → List FoodLogR
  | [] => [x]
  | y :: ys =>
    if y.occurredAt ≤ x.occurredAt then y :: insertByTime x ys else x :: y :: ys

/-- Stable sort by `occurredAt` ascending (`orderBy: { occurredAt: 'asc' }`). -/
def sortByTime : List FoodLogR → List FoodLogR
  | [] => []
  | x :: xs => insertByTime x (sortByTime xs)

/-- Today's logs of the (possibly demo) user, ordered by time. -/
def todayLogs (db : DB) (uid : Option String) (now : ℤ) : List FoodLogR :=
  let u := uid.getD "demo"
  let start := dayStart now
  sortByTime (db.foodLogs.filter
    (fun l => l.userId = u && start ≤ l.occurredAt && l.occurredAt < start + msPerDay))

/-- One element of the dashboard's `items` array. -/
structure ItemView where
  id : ℕ
  time : String
  food : String
  price : ℚ
deriving DecidableEq

/-- The itemized view built from today's logs (`l.foodItem?.name || ''`,
`Number(l.dubyCost || 0)`). -/
def dashboardItems (db : DB) (uid : Option String) (now : ℤ) : List ItemView :=
  (todayLogs db uid now).map (fun l =>
    { id := l.id, time := isoTimeOfMs l.occurredAt
      food := ((db.foodItems.find? (fun it => it.id = l.foodItemId)).map
        (fun it => it.name)).getD ""
      price := l.dubyCost })

/-- A per-user sheet tab as the dashboard reads it: the ledger rows
(range D6:H1000) and the daily-budget cell H2. -/
structure UserTab where
  ledgerRows : List (List CellValue)
  budgetCell : CellValue

/-- The dashboard response.  `remaining` and `price` are `Option ℚ`
because a malformed sheet cell can put `NaN` there. -/
structure DashResp where
  remaining : Option ℚ
  foodList : String
  price : Option ℚ
  items : List ItemView
  nextWeighIn : String
deriving DecidableEq

/-- `GET /api/dashboard`.  `sheet = none` models the spreadsheet being
unconfigured, the user having no name, or any exception inside the
sheet block (all leave the relational values in place); `some (H, tab)`
models a reachable tab.  The relational defaults are `remaining = 24`,
the joined food names and the summed snapshot prices of today's logs. -/
def dashboardHandler (db : DB) (uid : Option String) (now : ℤ)
    (sheet : Option (JSHost × UserTab)) : DashResp :=
  let items := dashboardItems db uid now
  let relFood := String.intercalate " | " (items.map (fun i => i.food))
  let relPrice : ℚ := items.foldl (fun s i => s + i.price) 0
  let rfp : Option ℚ × String × Option ℚ :=
    match sheet with
    | none => (some 24, relFood, some relPrice)
    | some (H, tab) =>
      match findBudgetToday H tab.ledgerRows now with
      | some row => (row.surplus, row.food, row.price)
      | none => (some (readDailyBudget H tab.budgetCell - relPrice), relFood,
          some relPrice)
  let day := (now.fdiv msPerDay + 4).emod 7
  let add := if (5 - day + 7).emod 7 = 0 then 7 else (5 - day + 7).emod 7
  { remaining := rfp.1, foodList := rfp.2.1, price := rfp.2.2, items := items
    nextWeighIn := isoDateOfMs (now + add * msPerDay) }

/-- Spec-side reading of C6's "relational aggregation": the remaining
budget derived from the relational store alone — the user's stored
profile budget minus the summed snapshot prices of today's logs. -/
def specRelationalRemaining (db : DB) (uid : Option String) (now : ℤ) : Option ℚ :=
  ((db.profiles.find? (fun p => p.userId = uid.getD "demo")).map
    (fun p => (p.dailyDubyBudget : ℚ) -
      (dashboardItems db uid now).foldl (fun s i => s + i.price) 0))

/-! ## Spec-side definitions (stated from the spec's words, for
refinement comparison with the source-derived definitions) -/

/-- Spec-side heuristic score, written from the claim's words: 15 if
the gender string's first character is 'm' case-insensitively else 7,
plus a weight bucket (5 if ≥90, 4 if ≥75, 3 if ≥60, else 2), a height
bucket (2 if ≥175, 1 if ≥160, else 0) and an age bucket (4 if <26, 3 if
<37, 2 if <47, 1 if <58, else 0). -/
def specScore (gender : String) (age heightCm : ℤ) (weightKg : ℚ) : ℤ :=
  (if isMaleGender gender then 15 else 7)
  + (if weightKg ≥ 90 then 5 else if weightKg ≥ 75 then 4 else
     if weightKg ≥ 60 then 3 else 2)
  + (if heightCm ≥ 175 then 2 else if heightCm ≥ 160 then 1 else 0)
  + (if age < 26 then 4 else if age < 37 then 3 else
     if age < 47 then 2 else if age < 58 then 1 else 0)

/-- A ledger row matches the target day when its date cell parses to a
valid Date on the same calendar day (the loop condition of
`findBudgetToday`). -/
def rowMatchesToday (H : JSHost) (today : ℤ) (r : List CellValue) : Bool :=
  match parseAnyDateValue H (r.headD .empty) with
  | some (some d) => sameDay d today
  | _ => false

/-- A concrete host whose native date parse accepts exactly the ISO
string "2023-03-15" (as the ECMAScript specification requires of
`new Date` on date-only ISO strings). -/
def H1 : JSHost :=
  { dateParse := fun s => if s = "2023-03-15" then some (msOfYmd 2023 3 15) else none
    numToStr := fun _ => ""
    strToNum := fun _ => none }

/-- A store whose only user "u" has a profile with daily budget 100 and
no food logs (used to separate the dashboard's fallback from any
relational aggregation). -/
def dbC6 : DB :=
  { foodItems := []
    foodLogs := []
    weightLogs := []
    profiles := [{ userId := "u", heightCm := 175, currentWeightKg := 80
                   goalWeightKg := 75, gender := "male", age := 30
                   activityLevel := .light, dailyDubyBudget := 100 }]
    nextId := 0 }

/-! ## Helper lemmas -/

/-- `computeDailyDuby` on an actually-present points argument: the JS
truthiness test collapses to positivity. -/
theorem computeDailyDuby_some (bmr : ℚ) (act : Activity) (s : ℤ) :
    computeDailyDuby bmr act (some s) =
      if 0 < s then s * 9 + 2 else jsRound (bmr * activityFactor act / 300) := by
  unfold computeDailyDuby wwPositive
  by_cases h : 0 < s
  · simp [h, h.ne']
  · simp [h]

/-- The heuristic score is positive for every input: the gender base is
at least 7 and every bucket is nonnegative. -/
theorem estimateWWPoints_pos (gender : String) (age heightCm : ℤ) (weightKg : ℚ) :
    0 < estimateWWPoints gender age heightCm weightKg := by
  unfold estimateWWPoints
  repeat' split <;> norm_num

/-! ## C1 -/

/-- C1: for every profile input, the stored daily budget is
`score × 9 + 2` when the heuristic score is positive, else
`round(BMR × activity_factor / 300)`, with the score given by the
spec's gender base and weight/height/age buckets; in particular male,
30, 175 cm, 80 kg gives score 24, and with activity `light` the budget
is 218. -/
theorem claim1_budget_formula :
    (∀ (gender : String) (age heightCm : ℤ) (weightKg : ℚ) (act : Activity),
      profileDailyBudget gender age heightCm weightKg act =
        if 0 < specScore gender age heightCm weightKg then
          specScore gender age heightCm weightKg * 9 + 2
        else jsRound (bmrOf gender age heightCm weightKg * activityFactor act / 300))
    ∧ specScore "male" 30 175 80 = 24
    ∧ profileDailyBudget "male" 30 175 80 .light = 218 := by
  refine ⟨?_, by decide, by decide⟩
  intro gender age heightCm weightKg act
  have hs : estimateWWPoints gender age heightCm weightKg =
      specScore gender age heightCm weightKg := rfl
  unfold profileDailyBudget
  rw [computeDailyDuby_some, hs]

/-! ## C2 -/

/-- C2: for every gender string and positive age, height and weight,
the heuristic score is strictly positive, so the profile pipeline's
daily budget is always `score × 9 + 2` and the BMR fallback branch of
`computeDailyDuby` is never taken. -/
theorem claim2_fallback_unreachable (gender : String) (age heightCm : ℤ)
    (weightKg : ℚ) (act : Activity)
    (_ha : 0 < age) (_hh : 0 < heightCm) (_hw : 0 < weightKg) :
    0 < estimateWWPoints gender age heightCm weightKg ∧
    profileDailyBudget gender age heightCm weightKg act =
      estimateWWPoints gender age heightCm weightKg * 9 + 2 := by
  have hpos := estimateWWPoints_pos gender age heightCm weightKg
  refine ⟨hpos, ?_⟩
  unfold profileDailyBudget
  rw [computeDailyDuby_some]
  simp [hpos]

/-- Witness for C2 at gender "x", age 1, height 1 cm, weight 1 kg,
activity sedentary. -/
theorem claim2_witness :
    (0:ℤ) < 1 ∧ (0:ℚ) < 1 ∧
    (0 < estimateWWPoints "x" 1 1 1 ∧
     profileDailyBudget "x" 1 1 1 .sedentary =
       estimateWWPoints "x" 1 1 1 * 9 + 2) :=
  ⟨by decide, by decide,
   claim2_fallback_unreachable "x" 1 1 1 .sedentary (by decide) (by decide)
     (by decide)⟩

/-! ## C3 -/

/-- The row-location loop is the first-match search: `findBudgetToday`
returns the first row whose date cell parses to the target day. -/
theorem findBudgetToday_eq_find? (H : JSHost) (rows : List (List CellValue))
    (today : ℤ) :
    findBudgetToday H rows today =
      (rows.find? (rowMatchesToday H today)).map (toBudgetRow H) := by
  induction rows with
  | nil => rfl
  | cons r rs ih =>
    have step : findBudgetToday H (r :: rs) today =
        if rowMatchesToday H today r then some (toBudgetRow H r)
        else findBudgetToday H rs today := by
      conv_lhs => unfold findBudgetToday
      unfold rowMatchesToday
      cases parseAnyDateValue H (r.headD .empty) with
      | none => simp
      | some o =>
        cases o with
        | none => simp
        | some d => by_cases hs : sameDay d today <;> simp [hs]
    rw [step, List.find?_cons]
    by_cases hc : rowMatchesToday H today r <;> simp [hc, ih]

/-- C3: locating today's ledger row returns the first row (top to
bottom) whose parsed date cell is the same calendar day as the target,
else `null`; serial 45000 parses to 15 March 2023 and matches a
same-day query, and "14/3/2024" (native parse failing on it) parses
day-first to 14 March 2024. -/
theorem claim3_row_date_matcher :
    (∀ (H : JSHost) (rows : List (List CellValue)) (today : ℤ),
      findBudgetToday H rows today =
        (rows.find? (rowMatchesToday H today)).map (toBudgetRow H))
    ∧ parseAnyDateValue H0 (.num 45000) = some (some (msOfYmd 2023 3 15))
    ∧ (findBudgetToday H0 [[.num 45000]] (msOfYmd 2023 3 15)).isSome = true
    ∧ (∀ H : JSHost, H.dateParse "14/3/2024" = none →
        parseAnyDateValue H (.str "14/3/2024") = some (some (msOfYmd 2024 3 14))) := by
  refine ⟨findBudgetToday_eq_find?, by decide, by decide, ?_⟩
  intro H h
  simp only [parseAnyDateValue, h]
  decide

/-- Witness for C3's hypothesis-bearing part at the concrete host `H0`
(whose native parse rejects "14/3/2024", as V8 does). -/
theorem claim3_witness :
    H0.dateParse "14/3/2024" = none ∧
    parseAnyDateValue H0 (.str "14/3/2024") = some (some (msOfYmd 2024 3 14)) :=
  ⟨rfl, claim3_row_date_matcher.2.2.2 H0 rfl⟩

/-! ## C4 -/

/-- Bounds for the row-index loop: a returned index is at least the
starting offset and within the scanned rows. -/
theorem findBudgetRowIndexGo_bounds (H : JSHost) (today : Option ℤ) :
    ∀ (rows : List (List CellValue)) (k i : ℕ),
      findBudgetRowIndexGo H today rows k = some i →
      k ≤ i ∧ i - k < rows.length := by
  intro rows
  induction rows with
  | nil => intro k i h; cases h
  | cons r rs ih =>
    intro k i h
    have hlen : (r :: rs).length = rs.length + 1 := rfl
    have step : findBudgetRowIndexGo H today (r :: rs) k =
        if (match parseAnyDateValue H (r.headD .empty) with
            | some (some d) => sameDayJS d today
            | _ => false) then some k
        else findBudgetRowIndexGo H today rs (k + 1) := by
      conv_lhs => unfold findBudgetRowIndexGo
      cases parseAnyDateValue H (r.headD .empty) with
      | none => simp
      | some o =>
        cases o with
        | none => simp
        | some d => by_cases hs : sameDayJS d today <;> simp [hs]
    rw [step] at h
    by_cases hc : (match parseAnyDateValue H (r.headD .empty) with
        | some (some d) => sameDayJS d today
        | _ => false) = true
    · rw [if_pos hc] at h
      cases h
      omega
    · rw [if_neg hc] at h
      have := ih (k + 1) i h
      omega

/-- A found row index is within the ledger. -/
theorem findBudgetRowIndex_lt (H : JSHost) (rows : List (List CellValue))
    (today : Option ℤ) (i : ℕ) (h : findBudgetRowIndex H rows today = some i) :
    i < rows.length := by
  have := findBudgetRowIndexGo_bounds H today rows 0 i h
  omega

/-- C4: upserting a ledger row either overwrites exactly the matching
row's five cells in place (all other rows unchanged) or appends the new
row to the ledger; the written fifth cell (remaining) is always the
daily budget minus the price. -/
theorem claim4_upsertBudgetRow (H : JSHost) (rows : List (List CellValue))
    (dateIso : String) (b pr : ℚ) (f : String) :
    (upsertBudgetRow H rows dateIso b pr f =
      match findBudgetRowIndex H rows (H.dateParse dateIso) with
      | some i => rows.set i (budgetRowCells dateIso b pr f)
      | none => rows ++ [budgetRowCells dateIso b pr f]) ∧
    (∀ i, findBudgetRowIndex H rows (H.dateParse dateIso) = some i →
      i < rows.length ∧
      (upsertBudgetRow H rows dateIso b pr f)[i]? =
        some (budgetRowCells dateIso b pr f) ∧
      ∀ j, j ≠ i → (upsertBudgetRow H rows dateIso b pr f)[j]? = rows[j]?) ∧
    (findBudgetRowIndex H rows (H.dateParse dateIso) = none →
      upsertBudgetRow H rows dateIso b pr f =
        rows ++ [budgetRowCells dateIso b pr f]) ∧
    (budgetRowCells dateIso b pr f)[4]? = some (.num (b - pr)) := by
  refine ⟨rfl, ?_, ?_, rfl⟩
  · intro i hi
    have hlt := findBudgetRowIndex_lt H rows (H.dateParse dateIso) i hi
    refine ⟨hlt, ?_, ?_⟩
    · unfold upsertBudgetRow
      rw [hi]
      exact List.getElem?_set_eq_of_lt _ hlt
    · intro j hj
      unfold upsertBudgetRow
      rw [hi]
      exact List.getElem?_set_ne (fun hij => hj hij.symm)
  · intro h
    unfold upsertBudgetRow
    rw [h]

/-- Witness for C4 at a one-row ledger whose serial date cell matches
the ISO date parsed by the host `H1`: the row is overwritten in place. -/
theorem claim4_witness :
    findBudgetRowIndex H1 [[CellValue.num 45000]] (H1.dateParse "2023-03-15") =
      some 0 ∧
    (0 < ([[CellValue.num 45000]] : List (List CellValue)).length ∧
     (upsertBudgetRow H1 [[CellValue.num 45000]] "2023-03-15" 24 10 "Apple")[0]? =
       some (budgetRowCells "2023-03-15" 24 10 "Apple") ∧
     ∀ j, j ≠ 0 →
       (upsertBudgetRow H1 [[CellValue.num 45000]] "2023-03-15" 24 10 "Apple")[j]? =
         ([[CellValue.num 45000]] : List (List CellValue))[j]?) :=
  ⟨by decide,
   (claim4_upsertBudgetRow H1 [[CellValue.num 45000]] "2023-03-15" 24 10
     "Apple").2.1 0 (by decide)⟩

/-! ## C5 -/

/-- C5: for each write endpoint (profile save, food-log create,
food-log delete, weight-log create), the relational mutation and the
response are the same whatever the mirror action does — in particular
the same as when the mirror write succeeds.  Mirror failures never
change the primary outcome. -/
theorem claim5_mirror_failures_swallowed {σ : Type} (db : DB) (uid name : String)
    (p : ProfileReq) (duby : ℚ) (unit : String) (portion : ℚ) (occurredAt : ℤ)
    (id : ℕ) (weightKg : ℚ) (date : ℤ) (sheet : σ) (act : σ → Except String σ) :
    ((profileSaveHandler db uid p sheet act).1 =
       (profileSaveHandler db uid p sheet (fun s => .ok s)).1 ∧
     (profileSaveHandler db uid p sheet act).2.2 =
       (profileSaveHandler db uid p sheet (fun s => .ok s)).2.2) ∧
    ((foodLogCreateHandler db uid name duby unit portion occurredAt sheet act).1 =
       (foodLogCreateHandler db uid name duby unit portion occurredAt sheet
         (fun s => .ok s)).1 ∧
     (foodLogCreateHandler db uid name duby unit portion occurredAt sheet act).2.2 =
       (foodLogCreateHandler db uid name duby unit portion occurredAt sheet
         (fun s => .ok s)).2.2) ∧
    ((foodLogDeleteHandler db uid id sheet act).1 =
       (foodLogDeleteHandler db uid id sheet (fun s => .ok s)).1 ∧
     (foodLogDeleteHandler db uid id sheet act).2.2 =
       (foodLogDeleteHandler db uid id sheet (fun s => .ok s)).2.2) ∧
    ((weightLogCreateHandler db uid weightKg date sheet act).1 =
       (weightLogCreateHandler db uid weightKg date sheet (fun s => .ok s)).1 ∧
     (weightLogCreateHandler db uid weightKg date sheet act).2.2 =
       (weightLogCreateHandler db uid weightKg date sheet (fun s => .ok s)).2.2) := by
  refine ⟨⟨rfl, rfl⟩, ⟨rfl, rfl⟩, ?_, ⟨rfl, rfl⟩⟩
  unfold foodLogDeleteHandler
  dsimp only
  by_cases hfd : (foodLogDelete db uid id).2 = true <;> simp [hfd]

/-! ## C6 -/

/-- C6 counterexample: with the spreadsheet unavailable, the dashboard's
remaining budget is the constant 24, not a value derived from the
relational store — the stored profile budget of 100 with no logs would
give 100 under relational aggregation. -/
theorem claim6_counterexample :
    (dashboardHandler dbC6 (some "u") 0 none).remaining = some 24 ∧
    specRelationalRemaining dbC6 (some "u") 0 = some 100 ∧
    (dashboardHandler dbC6 (some "u") 0 none).remaining ≠
      specRelationalRemaining dbC6 (some "u") 0 := by
  refine ⟨rfl, rfl, ?_⟩
  intro h
  have h2 : some (24 : ℚ) = some (100 : ℚ) := by
    calc some (24 : ℚ) = (dashboardHandler dbC6 (some "u") 0 none).remaining := rfl
    _ = specRelationalRemaining dbC6 (some "u") 0 := h
    _ = some 100 := rfl
  exact absurd (Option.some.inj h2) (by norm_num)

/-- C6 amended: with a reachable sheet tab, remaining is the matching
ledger row's surplus, or the tab's daily budget minus today's relational
price when no row matches; with the sheet unconfigured or unreachable,
remaining is the constant default 24 while the itemized entries still
come from the relational store. -/
theorem claim6_dashboard_remaining :
    (∀ (db : DB) (uid : Option String) (now : ℤ) (H : JSHost) (tab : UserTab),
      (dashboardHandler db uid now (some (H, tab))).remaining =
        match findBudgetToday H tab.ledgerRows now with
        | some row => row.surplus
        | none => some (readDailyBudget H tab.budgetCell -
            (dashboardItems db uid now).foldl (fun s i => s + i.price) 0)) ∧
    (∀ (db : DB) (uid : Option String) (now : ℤ),
      (dashboardHandler db uid now none).remaining = some 24) ∧
    (∀ (db : DB) (uid : Option String) (now : ℤ) (sheet : Option (JSHost × UserTab)),
      (dashboardHandler db uid now sheet).items = dashboardItems db uid now) := by
  refine ⟨?_, fun db uid now => rfl, ?_⟩
  · intro db uid now H tab
    unfold dashboardHandler
    cases h : findBudgetToday H tab.ledgerRows now <;> simp [h]
  · intro db uid now sheet
    unfold dashboardHandler
    cases sheet with
    | none => rfl
    | some s =>
      cases h : findBudgetToday s.1 s.2.ledgerRows now <;> simp [h]

/-! ## C7 -/

/-- C7 counterexample: with an existing tab "Bob (x", `ensureUserTab`
for the name "Bob" returns "Bob (x", which is neither the base title
nor a suffix-numbered variant "Bob (n)". -/
theorem claim7_counterexample :
    ensureUserTab ["Bob (x"] "Bob" "UserTemplate" = some ("Bob (x", ["Bob (x"]) ∧
    specSuffixNumbered (sanitizeSheetTitle "Bob") "Bob (x" = false := by
  exact ⟨by decide, by decide⟩

/-- C7 amended: the sanitizer replaces `: \ / ? * [ ]` with spaces,
collapses whitespace and trims, defaults to "User", truncates to 80
(so "A/B: Co*mpany" gives "A B Co mpany"); `ensureUserTab` returns the
first existing title that equals the base or merely starts with
"&lt;base&gt; (" (not only number-suffixed ones); otherwise — when no title
matches — the base itself is necessarily free, so the template clone is
always titled with the plain base (the numeric disambiguation of
`uniqueTitle` never fires on this path), and a missing template is an
error. -/
theorem claim7_ensureUserTab :
    sanitizeSheetTitle "A/B: Co*mpany" = "A B Co mpany" ∧
    (∀ (titles : List String) (name templateName : String),
      (∀ t, titles.find? (tabMatches (sanitizeSheetTitle name)) = some t →
        ensureUserTab titles name templateName = some (t, titles)) ∧
      (titles.find? (tabMatches (sanitizeSheetTitle name)) = none →
        sanitizeSheetTitle name ∉ titles ∧
        (templateName ∈ titles →
          ensureUserTab titles name templateName =
            some (sanitizeSheetTitle name, titles ++ [sanitizeSheetTitle name])) ∧
        (templateName ∉ titles →
          ensureUserTab titles name templateName = none))) := by
  refine ⟨by decide, ?_⟩
  intro titles name templateName
  constructor
  · intro t ht
    unfold ensureUserTab
    rw [ht]
  · intro hnone
    have hbase : sanitizeSheetTitle name ∉ titles := by
      intro hmem
      have := List.find?_eq_none.mp hnone _ hmem
      simp [tabMatches] at this
    refine ⟨hbase, ?_, ?_⟩
    · intro htpl
      unfold ensureUserTab
      rw [hnone]
      unfold duplicateUserTemplate uniqueTitle
      rw [if_pos htpl, if_neg hbase]
    · intro htpl
      unfold ensureUserTab
      rw [hnone]
      unfold duplicateUserTemplate
      rw [if_neg htpl]

/-- Witness for C7 at a sheet holding only the template: the find fails,
the template exists, and the clone gets the plain sanitized base title. -/
theorem claim7_witness :
    (["UserTemplate"].find? (tabMatches (sanitizeSheetTitle "Bob")) = none) ∧
    ("UserTemplate" ∈ ["UserTemplate"]) ∧
    ensureUserTab ["UserTemplate"] "Bob" "UserTemplate" =
      some (sanitizeSheetTitle "Bob", ["UserTemplate"] ++ [sanitizeSheetTitle "Bob"]) :=
  ⟨by decide, by decide,
   ((claim7_ensureUserTab.2 ["UserTemplate"] "Bob" "UserTemplate").2 (by decide)).2.1
     (by decide)⟩

/-! ## C8 -/

/-- C8: `ensureUserTab` is idempotent — if a call returns title `t` and
tab list `titles2`, a second call with the same name on the resulting
sheet returns the same title and changes nothing. -/
theorem claim8_ensureUserTab_idempotent (titles : List String)
    (name templateName t : String) (titles2 : List String)
    (h : ensureUserTab titles name templateName = some (t, titles2)) :
    ensureUserTab titles2 name templateName = some (t, titles2) := by
  unfold ensureUserTab at h ⊢
  cases hf : titles.find? (tabMatches (sanitizeSheetTitle name)) with
  | some u =>
    rw [hf] at h
    cases h
    rw [hf]
  | none =>
    rw [hf] at h
    have hbase : sanitizeSheetTitle name ∉ titles := by
      intro hmem
      have := List.find?_eq_none.mp hf _ hmem
      simp [tabMatches] at this
    unfold duplicateUserTemplate at h
    by_cases htpl : templateName ∈ titles
    · rw [if_pos htpl] at h
      unfold uniqueTitle at h
      rw [if_neg hbase] at h
      cases h
      have hfind2 : (titles ++ [sanitizeSheetTitle name]).find?
          (tabMatches (sanitizeSheetTitle name)) = some (sanitizeSheetTitle name) := by
        rw [List.find?_append, hf]
        simp [tabMatches]
      rw [hfind2]
    · rw [if_neg htpl] at h
      cases h

/-- Witness for C8: a first call that clones the template, then the
second call finding the clone. -/
theorem claim8_witness :
    ensureUserTab ["UserTemplate"] "Bob" "UserTemplate" =
      some ("Bob", ["UserTemplate", "Bob"]) ∧
    ensureUserTab ["UserTemplate", "Bob"] "Bob" "UserTemplate" =
      some ("Bob", ["UserTemplate", "Bob"]) :=
  ⟨by decide, claim8_ensureUserTab_idempotent ["UserTemplate"] "Bob" "UserTemplate"
    "Bob" ["UserTemplate", "Bob"] (by decide)⟩

/-! ## C9 -/

/-- Membership is invariant under time-ordered insertion. -/
theorem mem_insertByTime {x a : FoodLogR} {l : List FoodLogR} :
    a ∈ insertByTime x l ↔ a = x ∨ a ∈ l := by
  induction l with
  | nil => simp [insertByTime]
  | cons y ys ih =>
    unfold insertByTime
    by_cases h : y.occurredAt ≤ x.occurredAt <;> (simp [h, ih]; try tauto)

/-- Membership is invariant under the dashboard's time sort. -/
theorem mem_sortByTime {a : FoodLogR} {l : List FoodLogR} :
    a ∈ sortByTime l ↔ a ∈ l := by
  induction l with
  | nil => simp [sortByTime]
  | cons x xs ih => simp [sortByTime, mem_insertByTime, ih]

/-- The items of the dashboard are exactly the views of the store's
logs of the requested user falling on the requested day. -/
theorem mem_dashboardItems (db : DB) (uid : Option String) (now : ℤ)
    (item : ItemView) :
    item ∈ dashboardItems db uid now ↔
      ∃ l, l ∈ db.foodLogs ∧ l.userId = uid.getD "demo" ∧
        dayStart now ≤ l.occurredAt ∧ l.occurredAt < dayStart now + msPerDay ∧
        item = { id := l.id, time := isoTimeOfMs l.occurredAt
                 food := ((db.foodItems.find? (fun it => it.id = l.foodItemId)).map
                   (fun it => it.name)).getD ""
                 price := l.dubyCost } := by
  unfold dashboardItems todayLogs
  simp only [List.mem_map, mem_sortByTime, List.mem_filter, Bool.and_eq_true,
    decide_eq_true_eq]
  constructor
  · rintro ⟨l, ⟨hl, ⟨hu, hs⟩, he⟩, rfl⟩
    exact ⟨l, hl, hu, hs, he, rfl⟩
  · rintro ⟨l, hl, hu, hs, he, rfl⟩
    exact ⟨l, ⟨hl, ⟨hu, hs⟩, he⟩, rfl⟩

/-- The created food log entry: `foodLogCreate` appends exactly one
entry, carrying the returned id, the user, the timestamp and the
snapshotted cost, and its id is fresh relative to `nextId`. -/
theorem foodLogCreate_appends (db : DB) (uid name : String) (duby : ℚ)
    (unit : String) (portion : ℚ) (t : ℤ) :
    ∃ entry : FoodLogR,
      (foodLogCreate db uid name duby unit portion t).1.foodLogs =
        db.foodLogs ++ [entry] ∧
      entry.id = (foodLogCreate db uid name duby unit portion t).2 ∧
      entry.userId = uid ∧ entry.occurredAt = t ∧
      entry.dubyCost = dubyCostOf duby portion ∧
      db.nextId ≤ entry.id := by
  unfold foodLogCreate
  cases db.foodItems.find? (fun it => it.name = name) with
  | none => exact ⟨_, rfl, rfl, rfl, rfl, rfl, by dsimp only; omega⟩
  | some it => exact ⟨_, rfl, rfl, rfl, rfl, rfl, by dsimp only; omega⟩

/-- The cost snapshot with a nonzero portion is the plain product. -/
theorem dubyCostOf_eq (duby portion : ℚ) (h : portion ≠ 0) :
    dubyCostOf duby portion = duby * portion := by
  unfold dubyCostOf
  by_cases hd : duby = 0 <;> simp [hd, h]

/-- C9: creating a food log snapshots `dubyCost = duby × portion`; the
dashboard then reports exactly that snapshot as the entry's item price;
deleting the entry succeeds and it disappears from subsequent dashboard
reads. -/
theorem claim9_snapshot_and_delete (db : DB) (uid name : String) (duby : ℚ)
    (unit : String) (portion : ℚ) (t now : ℤ) (db2 : DB) (newId : ℕ)
    (hport : portion ≠ 0)
    (hfresh : ∀ l ∈ db.foodLogs, l.id < db.nextId)
    (ht1 : dayStart now ≤ t) (ht2 : t < dayStart now + msPerDay)
    (hc : foodLogCreate db uid name duby unit portion t = (db2, newId)) :
    ((db2.foodLogs.find? (fun l => l.id = newId)).map (fun l => l.dubyCost) =
       some (duby * portion)) ∧
    (∃ item ∈ (dashboardHandler db2 (some uid) now none).items,
       item.id = newId ∧ item.price = duby * portion) ∧
    ((foodLogDeleteHandler db2 uid newId () (fun s => .ok s)).2.2 = true) ∧
    (∀ item ∈ (dashboardHandler
        (foodLogDeleteHandler db2 uid newId () (fun s => .ok s)).1
        (some uid) now none).items, item.id ≠ newId) := by
  obtain ⟨entry, hlogs, hid, huser, htime, hcost, hfreshId⟩ :=
    foodLogCreate_appends db uid name duby unit portion t
  rw [hc] at hlogs hid
  have hcost' : entry.dubyCost = duby * portion := by
    rw [hcost, dubyCostOf_eq duby portion hport]
  have hold : ∀ l ∈ db.foodLogs, ¬ (l.id = newId) := by
    intro l hl
    have := hfresh l hl
    omega
  have hfind : db2.foodLogs.find? (fun l => l.id = newId) = some entry := by
    rw [hlogs, List.find?_append]
    have h1 : db.foodLogs.find? (fun l => l.id = newId) = none :=
      List.find?_eq_none.mpr (fun l hl => by simp [hold l hl])
    rw [h1]
    simp [List.find?, hid]
  refine ⟨?_, ?_, ?_, ?_⟩
  · rw [hfind]
    simp [hcost']
  · refine ⟨{ id := entry.id, time := isoTimeOfMs entry.occurredAt
              food := ((db2.foodItems.find? (fun it => it.id = entry.foodItemId)).map
                (fun it => it.name)).getD ""
              price := entry.dubyCost }, ?_, by simpa using hid, by simpa using hcost'⟩
    have : (dashboardHandler db2 (some uid) now none).items =
        dashboardItems db2 (some uid) now := rfl
    rw [this, mem_dashboardItems]
    refine ⟨entry, ?_, by simpa using huser, ?_, ?_, rfl⟩
    · rw [hlogs]; simp
    · rw [htime]; exact ht1
    · rw [htime]; exact ht2
  · unfold foodLogDeleteHandler foodLogDelete
    rw [hfind]
    simp [huser]
  · intro item hitem
    have hdel : (foodLogDeleteHandler db2 uid newId () (fun s => .ok s)).1 =
        { db2 with foodLogs := db2.foodLogs.filter (fun l => l.id ≠ newId) } := by
      unfold foodLogDeleteHandler foodLogDelete
      rw [hfind]
      simp [huser]
    rw [hdel] at hitem
    have : (dashboardHandler
        { db2 with foodLogs := db2.foodLogs.filter (fun l => l.id ≠ newId) }
        (some uid) now none).items =
        dashboardItems
          { db2 with foodLogs := db2.foodLogs.filter (fun l => l.id ≠ newId) }
          (some uid) now := rfl
    rw [this, mem_dashboardItems] at hitem
    obtain ⟨l, hl, -, -, -, rfl⟩ := hitem
    have := List.of_mem_filter hl
    simpa using this

/-- Witness for C9: an empty store, duby 2, portion 3 — the snapshot is
6, visible on the dashboard, and gone after deletion. -/
theorem claim9_witness :
    (3 : ℚ) ≠ 0 ∧
    (((foodLogCreate ⟨[], [], [], [], 0⟩ "u" "Apple" 2 "piece" 3 0).1.foodLogs.find?
        (fun l => l.id = (foodLogCreate ⟨[], [], [], [], 0⟩ "u" "Apple" 2 "piece" 3 0).2)).map
        (fun l => l.dubyCost) = some (2 * 3)) ∧
    (∃ item ∈ (dashboardHandler
        (foodLogCreate ⟨[], [], [], [], 0⟩ "u" "Apple" 2 "piece" 3 0).1
        (some "u") 0 none).items,
      item.id = (foodLogCreate ⟨[], [], [], [], 0⟩ "u" "Apple" 2 "piece" 3 0).2 ∧
      item.price = 2 * 3) := by
  have h := claim9_snapshot_and_delete ⟨[], [], [], [], 0⟩ "u" "Apple" 2 "piece" 3
    0 0 (foodLogCreate ⟨[], [], [], [], 0⟩ "u" "Apple" 2 "piece" 3 0).1
    (foodLogCreate ⟨[], [], [], [], 0⟩ "u" "Apple" 2 "piece" 3 0).2
    (by norm_num) (by simp) (by decide) (by decide) rfl
  exact ⟨by norm_num, h.1, h.2.1⟩

/-! ## C10 -/

/-- C10 counterexample: a numeric cell holding the serial value 10¹²
makes `parseAnyDateValue` return an Invalid Date (`some none` — a Date
whose timestamp is `NaN`), which is neither `null` nor a valid Date:
the number branch converts without any validity check. -/
theorem claim10_counterexample :
    parseAnyDateValue H0 (.num 1000000000000) = some none ∧
    some (none : Option ℤ) ≠ (none : Option (Option ℤ)) := by
  exact ⟨by decide, by decide⟩

/-- C10 amended: `parseAnyDateValue` is total, and never yields an
invalid date for string or absent inputs; for a numeric input it yields
the serial-converted Date, which is valid exactly when the converted
timestamp stays within the JS Date range — outside it (and only there)
the number branch produces an invalid date. -/
theorem claim10_parse_totality (H : JSHost) (v : CellValue)
    (hnum : ∀ n : ℚ, v = .num n →
      (jsRound ((n - 25569) * 86400) * 1000).natAbs ≤ maxJsMs) :
    parseAnyDateValue H v = none ∨
    ∃ t : ℤ, parseAnyDateValue H v = some (some t) := by
  cases v with
  | num n =>
    right
    exact ⟨jsRound ((n - 25569) * 86400) * 1000,
      by simp [parseAnyDateValue, serialToDate, hnum n rfl]⟩
  | empty => left; rfl
  | str s =>
    by_cases hs : s = ""
    · left; simp [parseAnyDateValue, hs]
    · cases hd : H.dateParse s with
      | some t => right; exact ⟨t, by simp [parseAnyDateValue, hs, hd]⟩
      | none =>
        cases hm : slashMatch s with
        | none => left; simp [parseAnyDateValue, hs, hd, hm]
        | some abc =>
          obtain ⟨a, b, c⟩ := abc
          cases h1 : jsMakeDate (if c < 100 then 2000 + c else c) (b - 1) a with
          | some t =>
            right; exact ⟨t, by simp [parseAnyDateValue, hs, hd, hm, h1]⟩
          | none =>
            cases h2 : jsMakeDate (if c < 100 then 2000 + c else c) (a - 1) b with
            | some t =>
              right; exact ⟨t, by simp [parseAnyDateValue, hs, hd, hm, h1, h2]⟩
            | none => left; simp [parseAnyDateValue, hs, hd, hm, h1, h2]

/-- Witness for C10 at the string "hello" (matching neither the native
parse of `H0` nor the slash pattern): the parse returns `null`. -/
theorem claim10_witness :
    (parseAnyDateValue H0 (.str "hello") = none ∨
     ∃ t : ℤ, parseAnyDateValue H0 (.str "hello") = some (some t)) ∧
    parseAnyDateValue H0 (.str "hello") = none :=
  ⟨claim10_parse_totality H0 (.str "hello") (fun n h => nomatch h), by decide⟩

end WightBudget
